import Mathlib

/-!
Shallow embedding of the arbitrary-waveform/sequence memory allocator of the
Agilent 81180A driver (`src/ivi/agilent/agilent81180A.py`, class
`agilent81180a`).

Modelling conventions:
* Python integers are `ℤ`; waveform samples (numpy floats compared exactly
  against the literals -1 and 1) are `ℚ`.
* Python `//` is `Int.fdiv` (floor division) and `%` is `Int.emod`
  (both agree with Python semantics for the positive divisors used here).
* The mutable driver object is the explicit state `Driver`; every operation
  returns its updated state.  Exceptions (`raise`) are `Except.error`
  paired with the state at the moment of the raise, so mutations performed
  before a raise are preserved, exactly as in Python.
* SCPI traffic is recorded as a trace of structured `Scpi` messages in the
  order the driver emits them.
* Python list indexing and mutation are modelled by `pyGetD` / `pySet` /
  `insertAt`.  Out-of-range indexing, which raises `IndexError` in Python,
  is defaulted here; no theorem below exercises an out-of-range index.
-/

/-- Exceptions raised by the allocator paths of the driver: in order,
`ivi.ValueNotSupportedException`, `ivi.OutOfRangeException`,
`fgen.NoWaveformsAvailableException`, `ivi.OperationNotSupportedException`. -/
inductive Err where
  | valueNotSupported
  | outOfRange
  | noWaveformsAvailable
  | operationNotSupported
  deriving Repr, DecidableEq

/-- Structured form of every SCPI message the allocator emits.  Each
constructor mirrors one formatted command string of the source:
`:INST {n}`, the query `:INST?`, `:TRAC:DEF {seg},{len}`, `:TRAC:SEL {seg}`,
the binary block upload with header `:TRAC:DATA `, `:TRAC:DEL {arg}`,
`:TRAC:DEL:ALL`, `:SEQ:SEL {h}`, `:SEQ:LENG {n}`,
`:SEQ:DEF {pos},{seg},{loops},0`, `:SEQ:DEL {h}` and `:SEQ:DEL:ALL`. -/
inductive Scpi where
  | instSel (n : ℤ)
  | instQuery
  | tracDef (seg len : ℤ)
  | tracSel (seg : ℤ)
  | tracData (payload : List ℤ)
  | tracDel (arg : ℤ)
  | tracDelAll
  | seqSel (h : ℤ)
  | seqLeng (n : ℤ)
  | seqDef (pos seg loops flags : ℤ)
  | seqDel (h : ℤ)
  | seqDelAll
  deriving Repr, DecidableEq

/-- Driver state.  `simulate` is `self._driver_operation_simulate`;
`selectedChannel` is `self._selected_channel` with its cache flag
`selCacheValid`; `deviceSelected` is the (already parsed) integer the
instrument would answer to the `:INST?` query, an oracle for the external
transport; `segmentCount` is `self._segment_count` (initially `[0, 0]`);
`sequenceCount` is `self._sequence_count`; `seqHandleCacheValid` models the
per-channel cache flag of the `output_arbitrary_sequence_handle` property;
`wire` is the trace of SCPI messages actually sent to the instrument. -/
structure Driver where
  simulate : Bool
  selectedChannel : ℤ
  selCacheValid : Bool
  deviceSelected : ℤ
  segmentCount : List ℤ
  sequenceCount : ℤ
  seqHandleCacheValid : List Bool
  wire : List Scpi
  deriving Repr, DecidableEq

/-- Python `l[i]` for integer `i` (negative indices count from the end);
an index that would raise `IndexError` is defaulted to 0 and is never
exercised by the theorems below. -/
def pyGetD (l : List ℤ) (i : ℤ) : ℤ :=
  if 0 ≤ i then l.getD i.toNat 0 else l.getD (l.length - (-i).toNat) 0

/-- Python `l[i] = v` under the same index convention as `pyGetD`. -/
def pySet (l : List ℤ) (i : ℤ) (v : ℤ) : List ℤ :=
  if 0 ≤ i then l.set i.toNat v else l.set (l.length - (-i).toNat) v

/-- Python `l.insert(i, x)`: inserts before position `i`, appending when
`i` is at or beyond the end of the list. -/
def insertAt (i : ℕ) (x : ℤ) : List ℤ → List ℤ
  | [] => [x]
  | a :: as =>
    match i with
    | 0 => x :: a :: as
    | n + 1 => a :: insertAt n x as

/-- Driver constant `self._arbitrary_waveform_number_waveforms_max`. -/
def arbitrary_waveform_number_waveforms_max : ℤ := 32000

/-- Driver constant `self._arbitrary_waveform_size_min`. -/
def arbitrary_waveform_size_min : ℕ := 320

/-- Driver constant `self._arbitrary_waveform_quantum`. -/
def arbitrary_waveform_quantum : ℕ := 32

/-- Modelled from the spec: the transport primitives (`ivi.Driver._write`,
`_ask`, `_write_ieee_block`) live in the base library outside `src/`.
Per the spec (section 4.1 and section 6), they are observably no-ops when
the simulate flag is active; otherwise they put the message on the wire. -/
def write (m : Scpi) (s : Driver) : Driver :=
  if s.simulate then s else { s with wire := s.wire ++ [m] }

/-- Source `_get_selected_channel`: when not simulating and the cache is
invalid, asks `:INST?` (the reply is the `deviceSelected` oracle), stores
the 0-based result and marks the cache valid; returns the cached value. -/
def get_selected_channel (s : Driver) : ℤ × Driver :=
  if ¬ s.simulate ∧ ¬ s.selCacheValid then
    let s1 : Driver :=
      { s with wire := s.wire ++ [Scpi.instQuery],
               selectedChannel := s.deviceSelected - 1,
               selCacheValid := true }
    (s1.selectedChannel, s1)
  else (s.selectedChannel, s)

/-- Source `_set_selected_channel`: when not simulating and the requested
index differs from the current selection, writes `:INST {index+1}` and marks
the cache valid; in every case records `index` as the selected channel. -/
def set_selected_channel (index : ℤ) (s : Driver) : Driver :=
  if s.simulate then { s with selectedChannel := index }
  else if index ≠ (get_selected_channel s).1 then
    { write (Scpi.instSel (index + 1)) (get_selected_channel s).2 with
        selCacheValid := true, selectedChannel := index }
  else { (get_selected_channel s).2 with selectedChannel := index }

/-- Source `_write_channel`: select the channel, then write the message. -/
def write_channel (m : Scpi) (index : ℤ) (s : Driver) : Driver :=
  write m (set_selected_channel index s)

/-- Source `_arbitrary_clear_memory`: when not simulating, sends
`:TRAC:DEL:ALL` and `:SEQ:DEL:ALL`.  It touches no counter. -/
def arbitrary_clear_memory (s : Driver) : Driver :=
  if ¬ s.simulate then write Scpi.seqDelAll (write Scpi.tracDelAll s) else s

/-- Second half of `_arbitrary_sequence_clear`: decrements the sequence
counter exactly when the handle equals the current counter value. -/
def decSeqIfTop (handle : ℤ) (s : Driver) : Driver :=
  if handle = s.sequenceCount then { s with sequenceCount := s.sequenceCount - 1 } else s

/-- Source `_arbitrary_sequence_clear`: when not simulating, sends
`:SEQ:DEL {handle}`; then decrements the sequence counter exactly when the
handle equals the current counter value. -/
def arbitrary_sequence_clear (handle : ℤ) (s : Driver) : Driver :=
  decSeqIfTop handle (if ¬ s.simulate then write (Scpi.seqDel handle) s else s)

/-- Record update helper: replace the `segmentCount` field. -/
def setSegCount (l : List ℤ) (s : Driver) : Driver := { s with segmentCount := l }

/-- Second half of `_arbitrary_waveform_clear`: decrements the counter of
the decoded channel (`handle // 32000`) exactly when the raw handle — not
the decoded segment index — equals that counter. -/
def decSegIfTop (handle : ℤ) (s : Driver) : Driver :=
  if handle = pyGetD s.segmentCount (Int.fdiv handle arbitrary_waveform_number_waveforms_max) then
    setSegCount
      (pySet s.segmentCount (Int.fdiv handle arbitrary_waveform_number_waveforms_max)
        (pyGetD s.segmentCount (Int.fdiv handle arbitrary_waveform_number_waveforms_max) - 1)) s
  else s

/-- Source `_arbitrary_waveform_clear`: decodes the channel as
`handle // 32000`; when not simulating, sends `:TRAC:DEL {handle}` on that
channel (note: the raw handle, not `handle % 32000`); then decrements that
channel's segment counter exactly when the raw handle equals the counter. -/
def arbitrary_waveform_clear (handle : ℤ) (s : Driver) : Driver :=
  decSegIfTop handle
    (if ¬ s.simulate then
      write_channel (Scpi.tracDel handle) (Int.fdiv handle arbitrary_waveform_number_waveforms_max) s
    else s)

/-- Source `_arbitrary_waveform_create` (the channel-less `fgen.ArbWfm`
entry point): unconditionally raises `ivi.OperationNotSupportedException`. -/
def arbitrary_waveform_create (data : List ℚ) (s : Driver) : Except Err ℤ × Driver :=
  (Except.error Err.operationNotSupported, s)

/-- Padding block of `_arbitrary_sequence_create` (source lines 398-411),
applied to the two caller-supplied lists in place: with fewer than 3 steps,
if there are 2 steps and the first loop count exceeds 1, a copy of step 0
is inserted after it with loop count 1 and step 0's loop count drops by 1;
else if there are 2 steps and the second loop count exceeds 1, the same
split is applied to step 1; else if there is 1 step with loop count above
2, two copies with loop count 1 are appended and the original loop count
drops by 2; any other shape is left untouched. -/
def padSteps (hl ll : List ℤ) : List ℤ × List ℤ :=
  if hl.length < 3 then
    if hl.length = 2 ∧ pyGetD ll 0 > 1 then
      (insertAt 1 (pyGetD hl 0) hl, insertAt 1 1 (pySet ll 0 (pyGetD ll 0 - 1)))
    else if hl.length = 2 ∧ pyGetD ll 1 > 1 then
      (insertAt 2 (pyGetD hl 1) hl, insertAt 2 1 (pySet ll 1 (pyGetD ll 1 - 1)))
    else if hl.length = 1 ∧ pyGetD ll 0 > 2 then
      (hl ++ [pyGetD hl 0, pyGetD hl 0], pySet ll 0 (pyGetD ll 0 - 2) ++ [1, 1])
    else (hl, ll)
  else (hl, ll)

/-- Guard conditions of the three padding branches of `padSteps`, in the
order the source tests them. -/
def padMatch (hl ll : List ℤ) : Prop :=
  (hl.length = 2 ∧ pyGetD ll 0 > 1) ∨ (hl.length = 2 ∧ pyGetD ll 1 > 1) ∨
    (hl.length = 1 ∧ pyGetD ll 0 > 2)

instance (hl ll : List ℤ) : Decidable (padMatch hl ll) := by
  unfold padMatch; infer_instance

/-- Inner loop of `_arbitrary_sequence_create`: one
`:SEQ:DEF {i+1},{hl[i]},{ll[i]},0` per index of `idxs`, each through
`_write_channel` on the given channel. -/
def seqDefWrites (hl ll : List ℤ) (chan : ℤ) (idxs : List ℕ) (s : Driver) : Driver :=
  match idxs with
  | [] => s
  | i :: rest =>
    seqDefWrites hl ll chan rest
      (write_channel (Scpi.seqDef ((i : ℤ) + 1) (pyGetD hl (i : ℤ)) (pyGetD ll (i : ℤ)) 0)
        chan s)

/-- One iteration of the channel loop of `_arbitrary_sequence_create`:
`:SEQ:SEL {count}`, `:SEQ:LENG {len}`, then one `:SEQ:DEF` per step, all
through `_write_channel` on the given channel. -/
def seqProgramChannel (hl ll : List ℤ) (count chan : ℤ) (s : Driver) : Driver :=
  seqDefWrites hl ll chan (List.range hl.length)
    (write_channel (Scpi.seqLeng (hl.length : ℤ)) chan
      (write_channel (Scpi.seqSel count) chan s))

/-- Cache invalidation `_set_cache_valid(valid=False,
tag="output_arbitrary_sequence_handle", index=index)` at the end of each
channel iteration of `_arbitrary_sequence_create`. -/
def setSeqCacheInvalid (chan : ℕ) (s : Driver) : Driver :=
  { s with seqHandleCacheValid := s.seqHandleCacheValid.set chan false }

/-- Source `_arbitrary_sequence_create`.  The guard is Python's chained
comparison `len(handle_list) != len(loop_count_list) != 0`, i.e. it raises
only when the lengths differ AND the loop-count list is nonempty.  The two
lists in the result are the final contents of the caller's list objects:
the padding block mutates them in place (insert/extend and element
decrement), so after the call the caller's own lists hold these values. -/
def arbitrary_sequence_create (hl ll : List ℤ) (s : Driver) :
    Except Err ℤ × (List ℤ × List ℤ) × Driver :=
  if hl.length ≠ ll.length ∧ ll.length ≠ 0 then
    (Except.error Err.valueNotSupported, (hl, ll), s)
  else
    (Except.ok (s.sequenceCount + 1), padSteps hl ll,
      setSeqCacheInvalid 1
        (seqProgramChannel (padSteps hl ll).1 (padSteps hl ll).2 (s.sequenceCount + 1) 1
          (setSeqCacheInvalid 0
            (seqProgramChannel (padSteps hl ll).1 (padSteps hl ll).2 (s.sequenceCount + 1) 0
              { s with sequenceCount := s.sequenceCount + 1 }))))

/-- Sample quantisation of the upload path: numpy `np.round` rounds halves
to the nearest even integer (banker's rounding). -/
def npRound (q : ℚ) : ℤ :=
  let f := Int.floor q
  let r := q - (f : ℚ)
  if r < 1 / 2 then f
  else if 1 / 2 < r then f + 1
  else if f % 2 = 0 then f else f + 1

/-- One sample of the binary payload:
`(np.round(x * 2047) + 2048).astype("<u2")`, the cast wrapping modulo
2^16. -/
def quantize (x : ℚ) : ℤ := (npRound (x * 2047) + 2048) % 65536

/-- Upload block of `_arbitrary_waveform_create_channel_waveform`, the part
under `if not self._driver_operation_simulate:`.  It re-reads the (already
incremented) segment counter of the channel, sends
`:TRAC:DEF {count},{len}`, `:TRAC:SEL {count}`, and the quantised binary
payload with the `:TRAC:DATA ` header. -/
def uploadSegment (index : ℤ) (data : List ℚ) (s : Driver) : Driver :=
  if ¬ s.simulate then
    write (Scpi.tracData (data.map quantize))
      (write (Scpi.tracSel (pyGetD s.segmentCount index))
        (write (Scpi.tracDef (pyGetD s.segmentCount index) (data.length : ℤ)) s))
  else s

/-- Source `_arbitrary_waveform_create_channel_waveform`, main body: checks
channel capacity, sample count and sample range in source order, then
increments the channel's segment counter, selects the channel, runs the
upload block, and returns `count + index * 32000` for the post-increment
counter value `count`. -/
def arbitrary_waveform_create_channel_waveform (index : ℤ) (data : List ℚ) (s : Driver) :
    Except Err ℤ × Driver :=
  if pyGetD s.segmentCount index ≥ arbitrary_waveform_number_waveforms_max then
    (Except.error Err.noWaveformsAvailable, s)
  else if data.length < arbitrary_waveform_size_min ∨
      data.length % arbitrary_waveform_quantum ≠ 0 then
    (Except.error Err.valueNotSupported, s)
  else if (data.all fun x => decide (-1 ≤ x ∧ x ≤ 1)) = false then
    (Except.error Err.outOfRange, s)
  else
    (Except.ok (pyGetD s.segmentCount index + 1 + index * arbitrary_waveform_number_waveforms_max),
      uploadSegment index data
        (set_selected_channel index
          { s with segmentCount := pySet s.segmentCount index (pyGetD s.segmentCount index + 1) }))

/-! Frame lemmas for the transport and channel-selection primitives. -/

/-- Flip only the simulate flag of a state. -/
def setSim (b : Bool) (s : Driver) : Driver := { s with simulate := b }

theorem setSim_segmentCount (b : Bool) (s : Driver) : (setSim b s).segmentCount = s.segmentCount := rfl

theorem setSim_sequenceCount (b : Bool) (s : Driver) : (setSim b s).sequenceCount = s.sequenceCount := rfl

theorem setSim_simulate (b : Bool) (s : Driver) : (setSim b s).simulate = b := rfl

theorem write_segmentCount (m : Scpi) (s : Driver) : (write m s).segmentCount = s.segmentCount := by
  unfold write; split <;> rfl

theorem write_sequenceCount (m : Scpi) (s : Driver) : (write m s).sequenceCount = s.sequenceCount := by
  unfold write; split <;> rfl

theorem write_simulate (m : Scpi) (s : Driver) : (write m s).simulate = s.simulate := by
  unfold write; split <;> rfl

theorem write_wire_of_sim (m : Scpi) (s : Driver) (h : s.simulate = true) :
    (write m s).wire = s.wire := by
  unfold write; rw [if_pos h]

theorem get_sel_segmentCount (s : Driver) :
    ((get_selected_channel s).2).segmentCount = s.segmentCount := by
  unfold get_selected_channel; split <;> rfl

theorem get_sel_sequenceCount (s : Driver) :
    ((get_selected_channel s).2).sequenceCount = s.sequenceCount := by
  unfold get_selected_channel; split <;> rfl

theorem get_sel_simulate (s : Driver) :
    ((get_selected_channel s).2).simulate = s.simulate := by
  unfold get_selected_channel; split <;> rfl

theorem get_sel_of_sim (s : Driver) (h : s.simulate = true) :
    get_selected_channel s = (s.selectedChannel, s) := by
  unfold get_selected_channel
  rw [if_neg]
  simp [h]

theorem set_sel_of_sim (i : ℤ) (s : Driver) (h : s.simulate = true) :
    set_selected_channel i s = { s with selectedChannel := i } := by
  unfold set_selected_channel; rw [if_pos h]

theorem set_sel_segmentCount (i : ℤ) (s : Driver) :
    (set_selected_channel i s).segmentCount = s.segmentCount := by
  unfold set_selected_channel
  split
  · rfl
  · split
    · show (write (Scpi.instSel (i + 1)) (get_selected_channel s).2).segmentCount = s.segmentCount
      rw [write_segmentCount, get_sel_segmentCount]
    · show ((get_selected_channel s).2).segmentCount = s.segmentCount
      rw [get_sel_segmentCount]

theorem set_sel_sequenceCount (i : ℤ) (s : Driver) :
    (set_selected_channel i s).sequenceCount = s.sequenceCount := by
  unfold set_selected_channel
  split
  · rfl
  · split
    · show (write (Scpi.instSel (i + 1)) (get_selected_channel s).2).sequenceCount = s.sequenceCount
      rw [write_sequenceCount, get_sel_sequenceCount]
    · show ((get_selected_channel s).2).sequenceCount = s.sequenceCount
      rw [get_sel_sequenceCount]

theorem set_sel_simulate (i : ℤ) (s : Driver) :
    (set_selected_channel i s).simulate = s.simulate := by
  unfold set_selected_channel
  split
  · rfl
  · split
    · show (write (Scpi.instSel (i + 1)) (get_selected_channel s).2).simulate = s.simulate
      rw [write_simulate, get_sel_simulate]
    · show ((get_selected_channel s).2).simulate = s.simulate
      rw [get_sel_simulate]

theorem set_sel_wire_of_sim (i : ℤ) (s : Driver) (h : s.simulate = true) :
    (set_selected_channel i s).wire = s.wire := by
  rw [set_sel_of_sim i s h]

theorem write_channel_segmentCount (m : Scpi) (i : ℤ) (s : Driver) :
    (write_channel m i s).segmentCount = s.segmentCount := by
  unfold write_channel; rw [write_segmentCount, set_sel_segmentCount]

theorem write_channel_sequenceCount (m : Scpi) (i : ℤ) (s : Driver) :
    (write_channel m i s).sequenceCount = s.sequenceCount := by
  unfold write_channel; rw [write_sequenceCount, set_sel_sequenceCount]

theorem write_channel_simulate (m : Scpi) (i : ℤ) (s : Driver) :
    (write_channel m i s).simulate = s.simulate := by
  unfold write_channel; rw [write_simulate, set_sel_simulate]

theorem write_channel_wire_of_sim (m : Scpi) (i : ℤ) (s : Driver) (h : s.simulate = true) :
    (write_channel m i s).wire = s.wire := by
  unfold write_channel
  rw [write_wire_of_sim _ _ (by rw [set_sel_simulate]; exact h), set_sel_wire_of_sim _ _ h]

theorem seqDefWrites_segmentCount (hl ll : List ℤ) (c : ℤ) (idxs : List ℕ) (s : Driver) :
    (seqDefWrites hl ll c idxs s).segmentCount = s.segmentCount := by
  induction idxs generalizing s with
  | nil => rfl
  | cons i rest ih => rw [seqDefWrites, ih, write_channel_segmentCount]

theorem seqDefWrites_sequenceCount (hl ll : List ℤ) (c : ℤ) (idxs : List ℕ) (s : Driver) :
    (seqDefWrites hl ll c idxs s).sequenceCount = s.sequenceCount := by
  induction idxs generalizing s with
  | nil => rfl
  | cons i rest ih => rw [seqDefWrites, ih, write_channel_sequenceCount]

theorem seqDefWrites_simulate (hl ll : List ℤ) (c : ℤ) (idxs : List ℕ) (s : Driver) :
    (seqDefWrites hl ll c idxs s).simulate = s.simulate := by
  induction idxs generalizing s with
  | nil => rfl
  | cons i rest ih => rw [seqDefWrites, ih, write_channel_simulate]

theorem seqDefWrites_wire_of_sim (hl ll : List ℤ) (c : ℤ) (idxs : List ℕ) (s : Driver)
    (h : s.simulate = true) : (seqDefWrites hl ll c idxs s).wire = s.wire := by
  induction idxs generalizing s with
  | nil => rfl
  | cons i rest ih =>
    rw [seqDefWrites, ih _ (by rw [write_channel_simulate]; exact h),
      write_channel_wire_of_sim _ _ _ h]

theorem seqProgramChannel_segmentCount (hl ll : List ℤ) (c chan : ℤ) (s : Driver) :
    (seqProgramChannel hl ll c chan s).segmentCount = s.segmentCount := by
  unfold seqProgramChannel
  rw [seqDefWrites_segmentCount, write_channel_segmentCount, write_channel_segmentCount]

theorem seqProgramChannel_sequenceCount (hl ll : List ℤ) (c chan : ℤ) (s : Driver) :
    (seqProgramChannel hl ll c chan s).sequenceCount = s.sequenceCount := by
  unfold seqProgramChannel
  rw [seqDefWrites_sequenceCount, write_channel_sequenceCount, write_channel_sequenceCount]

theorem seqProgramChannel_simulate (hl ll : List ℤ) (c chan : ℤ) (s : Driver) :
    (seqProgramChannel hl ll c chan s).simulate = s.simulate := by
  unfold seqProgramChannel
  rw [seqDefWrites_simulate, write_channel_simulate, write_channel_simulate]

theorem seqProgramChannel_wire_of_sim (hl ll : List ℤ) (c chan : ℤ) (s : Driver)
    (h : s.simulate = true) : (seqProgramChannel hl ll c chan s).wire = s.wire := by
  unfold seqProgramChannel
  rw [seqDefWrites_wire_of_sim _ _ _ _ _
      (by rw [write_channel_simulate, write_channel_simulate]; exact h),
    write_channel_wire_of_sim _ _ _ (by rw [write_channel_simulate]; exact h),
    write_channel_wire_of_sim _ _ _ h]

theorem setSeqCacheInvalid_segmentCount (c : ℕ) (s : Driver) :
    (setSeqCacheInvalid c s).segmentCount = s.segmentCount := rfl

theorem setSeqCacheInvalid_sequenceCount (c : ℕ) (s : Driver) :
    (setSeqCacheInvalid c s).sequenceCount = s.sequenceCount := rfl

theorem setSeqCacheInvalid_simulate (c : ℕ) (s : Driver) :
    (setSeqCacheInvalid c s).simulate = s.simulate := rfl

theorem setSeqCacheInvalid_wire (c : ℕ) (s : Driver) :
    (setSeqCacheInvalid c s).wire = s.wire := rfl

theorem uploadSegment_segmentCount (i : ℤ) (d : List ℚ) (s : Driver) :
    (uploadSegment i d s).segmentCount = s.segmentCount := by
  unfold uploadSegment
  split
  · rw [write_segmentCount, write_segmentCount, write_segmentCount]
  · rfl

theorem uploadSegment_sequenceCount (i : ℤ) (d : List ℚ) (s : Driver) :
    (uploadSegment i d s).sequenceCount = s.sequenceCount := by
  unfold uploadSegment
  split
  · rw [write_sequenceCount, write_sequenceCount, write_sequenceCount]
  · rfl

theorem uploadSegment_wire_of_sim (i : ℤ) (d : List ℚ) (s : Driver) (h : s.simulate = true) :
    (uploadSegment i d s).wire = s.wire := by
  unfold uploadSegment
  rw [if_neg (by rw [h]; exact fun hc => hc rfl)]

/-! Characterisations of each allocator operation: its result, its effect
on the two counters, and its wire silence under simulation.  Each follows
by unfolding the definition and case analysis on its checks. -/

theorem create_result (i : ℤ) (d : List ℚ) (s : Driver) :
    (arbitrary_waveform_create_channel_waveform i d s).1 =
      (if pyGetD s.segmentCount i ≥ arbitrary_waveform_number_waveforms_max then
        Except.error Err.noWaveformsAvailable
      else if d.length < arbitrary_waveform_size_min ∨
          d.length % arbitrary_waveform_quantum ≠ 0 then
        Except.error Err.valueNotSupported
      else if (d.all fun x => decide (-1 ≤ x ∧ x ≤ 1)) = false then
        Except.error Err.outOfRange
      else
        Except.ok (pyGetD s.segmentCount i + 1 + i * arbitrary_waveform_number_waveforms_max)) := by
  unfold arbitrary_waveform_create_channel_waveform
  split_ifs <;> rfl

theorem create_segmentCount (i : ℤ) (d : List ℚ) (s : Driver) :
    ((arbitrary_waveform_create_channel_waveform i d s).2).segmentCount =
      (if pyGetD s.segmentCount i ≥ arbitrary_waveform_number_waveforms_max then s.segmentCount
      else if d.length < arbitrary_waveform_size_min ∨
          d.length % arbitrary_waveform_quantum ≠ 0 then s.segmentCount
      else if (d.all fun x => decide (-1 ≤ x ∧ x ≤ 1)) = false then s.segmentCount
      else pySet s.segmentCount i (pyGetD s.segmentCount i + 1)) := by
  unfold arbitrary_waveform_create_channel_waveform
  split_ifs
  · rfl
  · rfl
  · rfl
  · rw [uploadSegment_segmentCount, set_sel_segmentCount]

theorem create_sequenceCount (i : ℤ) (d : List ℚ) (s : Driver) :
    ((arbitrary_waveform_create_channel_waveform i d s).2).sequenceCount = s.sequenceCount := by
  unfold arbitrary_waveform_create_channel_waveform
  split_ifs
  · rfl
  · rfl
  · rfl
  · rw [uploadSegment_sequenceCount, set_sel_sequenceCount]

theorem create_wire_of_sim (i : ℤ) (d : List ℚ) (s : Driver) (h : s.simulate = true) :
    ((arbitrary_waveform_create_channel_waveform i d s).2).wire = s.wire := by
  unfold arbitrary_waveform_create_channel_waveform
  split_ifs
  · rfl
  · rfl
  · rfl
  · simp [uploadSegment_wire_of_sim, set_sel_wire_of_sim, set_sel_simulate, h]

theorem wfclear_segmentCount (handle : ℤ) (s : Driver) :
    (arbitrary_waveform_clear handle s).segmentCount = (decSegIfTop handle s).segmentCount := by
  unfold arbitrary_waveform_clear
  split
  · unfold decSegIfTop
    simp only [apply_ite Driver.segmentCount, setSegCount, write_channel_segmentCount]
  · rfl

theorem wfclear_sequenceCount (handle : ℤ) (s : Driver) :
    (arbitrary_waveform_clear handle s).sequenceCount = s.sequenceCount := by
  unfold arbitrary_waveform_clear decSegIfTop
  split
  · rw [write_channel_segmentCount]
    split
    · show (write_channel (Scpi.tracDel handle) _ s).sequenceCount = s.sequenceCount
      rw [write_channel_sequenceCount]
    · rw [write_channel_sequenceCount]
  · split <;> rfl

theorem wfclear_wire_of_sim (handle : ℤ) (s : Driver) (h : s.simulate = true) :
    (arbitrary_waveform_clear handle s).wire = s.wire := by
  unfold arbitrary_waveform_clear
  rw [if_neg (by rw [h]; exact fun hc => hc rfl)]
  unfold decSegIfTop
  split <;> rfl

theorem seqclear_sequenceCount (handle : ℤ) (s : Driver) :
    (arbitrary_sequence_clear handle s).sequenceCount = (decSeqIfTop handle s).sequenceCount := by
  unfold arbitrary_sequence_clear
  split
  · unfold decSeqIfTop
    simp only [apply_ite Driver.sequenceCount, write_sequenceCount]
  · rfl

theorem seqclear_segmentCount (handle : ℤ) (s : Driver) :
    (arbitrary_sequence_clear handle s).segmentCount = s.segmentCount := by
  unfold arbitrary_sequence_clear decSeqIfTop
  split
  · rw [write_sequenceCount]
    split
    · show (write (Scpi.seqDel handle) s).segmentCount = s.segmentCount
      rw [write_segmentCount]
    · rw [write_segmentCount]
  · split <;> rfl

theorem seqclear_wire_of_sim (handle : ℤ) (s : Driver) (h : s.simulate = true) :
    (arbitrary_sequence_clear handle s).wire = s.wire := by
  unfold arbitrary_sequence_clear
  rw [if_neg (by rw [h]; exact fun hc => hc rfl)]
  unfold decSeqIfTop
  split <;> rfl

theorem clearmem_segmentCount (s : Driver) :
    (arbitrary_clear_memory s).segmentCount = s.segmentCount := by
  unfold arbitrary_clear_memory
  split
  · rw [write_segmentCount, write_segmentCount]
  · rfl

theorem clearmem_sequenceCount (s : Driver) :
    (arbitrary_clear_memory s).sequenceCount = s.sequenceCount := by
  unfold arbitrary_clear_memory
  split
  · rw [write_sequenceCount, write_sequenceCount]
  · rfl

theorem clearmem_wire_of_sim (s : Driver) (h : s.simulate = true) :
    (arbitrary_clear_memory s).wire = s.wire := by
  unfold arbitrary_clear_memory
  rw [if_neg (by rw [h]; exact fun hc => hc rfl)]

theorem seqCreate_result (hl ll : List ℤ) (s : Driver) :
    (arbitrary_sequence_create hl ll s).1 =
      (if hl.length ≠ ll.length ∧ ll.length ≠ 0 then Except.error Err.valueNotSupported
      else Except.ok (s.sequenceCount + 1)) := by
  unfold arbitrary_sequence_create
  split_ifs <;> rfl

theorem seqCreate_lists (hl ll : List ℤ) (s : Driver) :
    (arbitrary_sequence_create hl ll s).2.1 =
      (if hl.length ≠ ll.length ∧ ll.length ≠ 0 then (hl, ll) else padSteps hl ll) := by
  unfold arbitrary_sequence_create
  split_ifs <;> rfl

theorem seqCreate_segmentCount (hl ll : List ℤ) (s : Driver) :
    ((arbitrary_sequence_create hl ll s).2.2).segmentCount = s.segmentCount := by
  unfold arbitrary_sequence_create
  split
  · rfl
  · rw [setSeqCacheInvalid_segmentCount, seqProgramChannel_segmentCount,
      setSeqCacheInvalid_segmentCount, seqProgramChannel_segmentCount]

theorem seqCreate_sequenceCount (hl ll : List ℤ) (s : Driver) :
    ((arbitrary_sequence_create hl ll s).2.2).sequenceCount =
      (if hl.length ≠ ll.length ∧ ll.length ≠ 0 then s.sequenceCount
      else s.sequenceCount + 1) := by
  unfold arbitrary_sequence_create
  split
  · rfl
  · rw [setSeqCacheInvalid_sequenceCount, seqProgramChannel_sequenceCount,
      setSeqCacheInvalid_sequenceCount, seqProgramChannel_sequenceCount]

theorem seqCreate_wire_of_sim (hl ll : List ℤ) (s : Driver) (h : s.simulate = true) :
    ((arbitrary_sequence_create hl ll s).2.2).wire = s.wire := by
  unfold arbitrary_sequence_create
  split
  · rfl
  · simp [setSeqCacheInvalid_wire, setSeqCacheInvalid_simulate, seqProgramChannel_wire_of_sim,
      seqProgramChannel_simulate, h]

/-! Facts about the padding block of `_arbitrary_sequence_create`. -/

theorem pyGetD_nil (i : ℤ) : pyGetD [] i = 0 := by
  unfold pyGetD; split <;> simp [List.getD_nil]

theorem pyGetD_zero (a : ℤ) (tl : List ℤ) : pyGetD (a :: tl) 0 = a := rfl

theorem pyGetD_one (a b : ℤ) (tl : List ℤ) : pyGetD (a :: b :: tl) 1 = b := rfl

theorem pyGetD_one_single (a : ℤ) : pyGetD [a] 1 = 0 := rfl

theorem pySet_zero (a v : ℤ) (tl : List ℤ) : pySet (a :: tl) 0 v = v :: tl := rfl

theorem pySet_one (a b v : ℤ) (tl : List ℤ) : pySet (a :: b :: tl) 1 v = a :: v :: tl := rfl

theorem insertAt_zero (x : ℤ) (l : List ℤ) : insertAt 0 x l = x :: l := by
  cases l <;> rfl

theorem insertAt_succ (n : ℕ) (x a : ℤ) (as : List ℤ) :
    insertAt (n + 1) x (a :: as) = a :: insertAt n x as := rfl

theorem insertAt_length (i : ℕ) (x : ℤ) (l : List ℤ) :
    (insertAt i x l).length = l.length + 1 := by
  induction l generalizing i with
  | nil => simp [insertAt]
  | cons a as ih =>
    cases i with
    | zero => rfl
    | succ n => rw [insertAt_succ, List.length_cons, List.length_cons, ih]

/-- The padding block preserves the sum of the loop counts (the total play
count of the sequence). -/
theorem padSteps_sum (hl ll : List ℤ) : ((padSteps hl ll).2).sum = ll.sum := by
  unfold padSteps
  split_ifs with h0 h1 h2 h3
  · obtain ⟨-, hgt⟩ := h1
    match ll with
    | [] => rw [pyGetD_nil] at hgt; omega
    | a :: tl =>
      rw [pyGetD_zero, pySet_zero, insertAt_succ, insertAt_zero]
      simp only [List.sum_cons]
      omega
  · obtain ⟨-, hgt⟩ := h2
    match ll with
    | [] => rw [pyGetD_nil] at hgt; omega
    | [a] => rw [pyGetD_one_single] at hgt; omega
    | a :: b :: tl =>
      rw [pyGetD_one, pySet_one, insertAt_succ, insertAt_succ, insertAt_zero]
      simp only [List.sum_cons]
      omega
  · obtain ⟨-, hgt⟩ := h3
    match ll with
    | [] => rw [pyGetD_nil] at hgt; omega
    | a :: tl =>
      rw [pyGetD_zero, pySet_zero]
      simp only [List.sum_append, List.sum_cons, List.sum_nil]
      omega
  · rfl
  · rfl

/-- With at least 3 steps the padding block leaves both lists unchanged. -/
theorem padSteps_of_ge (hl ll : List ℤ) (h : 3 ≤ hl.length) : padSteps hl ll = (hl, ll) := by
  unfold padSteps
  rw [if_neg (by omega)]

/-- A short step list matching none of the three padding rules is left
unchanged. -/
theorem padSteps_of_nomatch (hl ll : List ℤ) (h : hl.length < 3) (hm : ¬ padMatch hl ll) :
    padSteps hl ll = (hl, ll) := by
  unfold padSteps
  rw [if_pos h, if_neg (fun hc => hm (Or.inl hc)),
    if_neg (fun hc => hm (Or.inr (Or.inl hc))), if_neg (fun hc => hm (Or.inr (Or.inr hc)))]

theorem padMatch_length_lt (hl ll : List ℤ) (hm : padMatch hl ll) : hl.length < 3 := by
  rcases hm with ⟨h, -⟩ | ⟨h, -⟩ | ⟨h, -⟩ <;> omega

/-- When one of the padding rules matches and the two lists have equal
length, the padded lists both have exactly 3 steps. -/
theorem padSteps_length_of_match (hl ll : List ℤ) (heq : hl.length = ll.length)
    (hm : padMatch hl ll) :
    ((padSteps hl ll).1).length = 3 ∧ ((padSteps hl ll).2).length = 3 := by
  unfold padSteps
  rw [if_pos (padMatch_length_lt hl ll hm)]
  split_ifs with h1 h2 h3
  · constructor
    · rw [insertAt_length, h1.1]
    · show (insertAt 1 1 (pySet ll 0 (pyGetD ll 0 - 1))).length = 3
      unfold pySet
      rw [insertAt_length]
      split <;> rw [List.length_set] <;> omega
  · constructor
    · rw [insertAt_length, h2.1]
    · show (insertAt 2 1 (pySet ll 1 (pyGetD ll 1 - 1))).length = 3
      unfold pySet
      rw [insertAt_length]
      split <;> rw [List.length_set] <;> omega
  · constructor
    · show (hl ++ [pyGetD hl 0, pyGetD hl 0]).length = 3
      rw [List.length_append, h3.1]
      rfl
    · show (pySet ll 0 (pyGetD ll 0 - 2) ++ [1, 1]).length = 3
      unfold pySet
      rw [List.length_append]
      split <;> rw [List.length_set] <;>
        simp only [List.length_cons, List.length_nil] <;> omega
  · unfold padMatch at hm
    rcases hm with hc | hc | hc
    · exact absurd hc h1
    · exact absurd hc h2
    · exact absurd hc h3

/-! Concrete states and data used by the closed evaluations below. -/

/-- Baseline driver state: fresh counters (as set in `__init__`), channel 0
selected with a valid cache, simulate flag on. -/
def simState : Driver :=
  { simulate := true, selectedChannel := 0, selCacheValid := true,
    deviceSelected := 1, segmentCount := [0, 0], sequenceCount := 0,
    seqHandleCacheValid := [true, true], wire := [] }

/-- Baseline state with the simulate flag off. -/
def liveState : Driver := { simState with simulate := false }

/-- A valid waveform payload: 320 zero samples (minimum size, multiple of
the quantum, all inside the closed range). -/
def data320 : List ℚ := List.replicate 320 0

/-- A size-valid payload whose samples are out of range. -/
def dataBad : List ℚ := List.replicate 320 2

/-- C1: `clearAllMemory` (`_arbitrary_clear_memory`) is claimed to reset
every per-scope segment counter and the sequence counter to 0.  The source
only sends `:TRAC:DEL:ALL` and `:SEQ:DEL:ALL` and never touches
`_segment_count` or `_sequence_count`: evaluated at segment counters
`[3, 5]` and sequence counter `7` (simulate off), both are unchanged and
nonzero after the call. -/
theorem clear_memory_leaves_counters :
    (arbitrary_clear_memory { liveState with segmentCount := [3, 5], sequenceCount := 7 }).segmentCount = [3, 5] ∧
    (arbitrary_clear_memory { liveState with segmentCount := [3, 5], sequenceCount := 7 }).sequenceCount = 7 ∧
    (arbitrary_clear_memory { liveState with segmentCount := [3, 5], sequenceCount := 7 }).wire = [Scpi.tracDelAll, Scpi.seqDelAll] ∧
    (arbitrary_clear_memory { liveState with segmentCount := [3, 5], sequenceCount := 7 }).segmentCount ≠ [0, 0] ∧
    (arbitrary_clear_memory { liveState with segmentCount := [3, 5], sequenceCount := 7 }).sequenceCount ≠ 0 := by
  refine ⟨rfl, rfl, rfl, by decide, by decide⟩

/-- C4: `createSequence` (`_arbitrary_sequence_create`) is claimed to raise
`InvalidSequence` on an empty step list, with no counter increment and no
transport write.  The guard `len(handle_list) != len(loop_count_list) != 0`
is a chained comparison that an empty pair of lists passes: evaluated on
empty lists (simulate off), the call returns handle 1, increments the
sequence counter to 1, and writes the sequence-programming commands for
both channels. -/
theorem sequence_create_empty_input_eval :
    (arbitrary_sequence_create [] [] liveState).1 = Except.ok 1 ∧
    ((arbitrary_sequence_create [] [] liveState).2.2).sequenceCount = 1 ∧
    ((arbitrary_sequence_create [] [] liveState).2.2).wire =
      [Scpi.seqSel 1, Scpi.seqLeng 0, Scpi.instSel 2, Scpi.seqSel 1, Scpi.seqLeng 0] := by
  refine ⟨rfl, rfl, rfl⟩

set_option maxRecDepth 40000 in
/-- C7: `clearWaveform` (`_arbitrary_waveform_clear`) is claimed to
decrement the scope's counter by 1 when the handle is the top segment of
its scope.  The source compares the raw handle with the bare per-channel
counter, never decoding `handle % 32000`: creating the first waveform on
channel 1 returns handle 32001 (the top — and only — segment of channel
1's scope, counter `[0, 1]`), yet clearing handle 32001 leaves the counter
at `[0, 1]` instead of `[0, 0]`. -/
theorem clear_waveform_top_channel1_eval :
    (arbitrary_waveform_create_channel_waveform 1 data320 simState).1 = Except.ok 32001 ∧
    ((arbitrary_waveform_create_channel_waveform 1 data320 simState).2).segmentCount = [0, 1] ∧
    (arbitrary_waveform_clear 32001
      ((arbitrary_waveform_create_channel_waveform 1 data320 simState).2)).segmentCount = [0, 1] := by
  refine ⟨rfl, rfl, rfl⟩

/-- C8: `clearWaveform` (`_arbitrary_waveform_clear`) is claimed to issue a
delete-segment command whose argument is the decoded segment index
`handle % 32000`.  The source sends the raw handle: for handle 32001
(decoded channel 1, decoded segment index 1) with channel 1 already
selected, the only message on the wire is `:TRAC:DEL 32001`, and
`32001 ≠ 32001 % 32000 = 1`. -/
theorem clear_waveform_raw_handle_eval :
    (arbitrary_waveform_clear 32001 { liveState with selectedChannel := 1 }).wire =
      [Scpi.tracDel 32001] ∧
    Int.fdiv 32001 arbitrary_waveform_number_waveforms_max = 1 ∧
    Int.emod 32001 arbitrary_waveform_number_waveforms_max = 1 ∧
    (32001 : ℤ) ≠ 1 := by
  refine ⟨rfl, by decide, by decide, by decide⟩

/-- C10: the channel-less `_arbitrary_waveform_create` raises
`ivi.OperationNotSupportedException` for every input, before any mutation
or transport call: the state is returned untouched. -/
theorem waveform_create_unsupported (data : List ℚ) (s : Driver) :
    arbitrary_waveform_create data s = (Except.error Err.operationNotSupported, s) := rfl

set_option maxRecDepth 40000 in
/-- C3 counterexample: with channel 0's segment counter at 31999 (below
`MAX_WAVEFORMS = 32000`, so the waveform is accepted), `createWaveform` on
channel 0 returns handle 32000, and `32000 // 32000 = 1 ≠ 0`: the decoded
channel is not the requested channel. -/
theorem create_waveform_handle_decode_cx :
    pyGetD (Driver.segmentCount { simState with segmentCount := [31999, 0] }) 0 <
      arbitrary_waveform_number_waveforms_max ∧
    (arbitrary_waveform_create_channel_waveform 0 data320
      { simState with segmentCount := [31999, 0] }).1 = Except.ok 32000 ∧
    Int.fdiv 32000 arbitrary_waveform_number_waveforms_max = 1 ∧
    (1 : ℤ) ≠ 0 := by
  refine ⟨by decide, rfl, by decide, by decide⟩

theorem decSegIfTop_segmentCount (handle : ℤ) (s : Driver) :
    (decSegIfTop handle s).segmentCount =
      (if handle = pyGetD s.segmentCount
          (Int.fdiv handle arbitrary_waveform_number_waveforms_max) then
        pySet s.segmentCount (Int.fdiv handle arbitrary_waveform_number_waveforms_max)
          (pyGetD s.segmentCount (Int.fdiv handle arbitrary_waveform_number_waveforms_max) - 1)
      else s.segmentCount) := by
  unfold decSegIfTop
  split <;> rfl

theorem decSeqIfTop_sequenceCount (handle : ℤ) (s : Driver) :
    (decSeqIfTop handle s).sequenceCount =
      (if handle = s.sequenceCount then s.sequenceCount - 1 else s.sequenceCount) := by
  unfold decSeqIfTop
  split <;> rfl

/-- C2: the padding rules of `createSequence` (`_arbitrary_sequence_create`).
For well-formed calls (equal-length lists) the final step lists are exactly
`padSteps` of the inputs; padding preserves the total play count (the sum
of the loop counts); the concrete lists `[(5,4)]`, `[(5,3),(7,1)]` and
`[(5,1),(7,3)]` expand exactly as the claim states; and a list with 3 or
more steps, or a short list matching no rule, is left unchanged. -/
theorem sequence_create_padding_spec :
    (∀ (hl ll : List ℤ) (s : Driver), hl.length = ll.length →
      (arbitrary_sequence_create hl ll s).2.1 = padSteps hl ll) ∧
    (∀ hl ll : List ℤ, ((padSteps hl ll).2).sum = ll.sum) ∧
    padSteps [5] [4] = ([5, 5, 5], [2, 1, 1]) ∧
    padSteps [5, 7] [3, 1] = ([5, 5, 7], [2, 1, 1]) ∧
    padSteps [5, 7] [1, 3] = ([5, 7, 7], [1, 2, 1]) ∧
    (∀ hl ll : List ℤ, 3 ≤ hl.length → padSteps hl ll = (hl, ll)) ∧
    (∀ hl ll : List ℤ, hl.length < 3 → ¬ padMatch hl ll → padSteps hl ll = (hl, ll)) := by
  refine ⟨?_, padSteps_sum, by decide, by decide, by decide, padSteps_of_ge, padSteps_of_nomatch⟩
  intro hl ll s heq
  rw [seqCreate_lists, if_neg (fun hc => hc.1 heq)]

/-- Witness for the padding rules, at the concrete inputs of the claim:
an already-3-step list passes through `createSequence` unchanged, a 1-step
list with loop count 2 matches no rule, and the `[(5,4)]` expansion keeps
the total play count 4. -/
theorem sequence_create_padding_spec_w :
    (arbitrary_sequence_create [5, 7, 9] [2, 1, 1] simState).2.1 =
      padSteps [5, 7, 9] [2, 1, 1] ∧
    padSteps [5, 7, 9] [2, 1, 1] = ([5, 7, 9], [2, 1, 1]) ∧
    padSteps [5] [2] = ([5], [2]) ∧
    ((padSteps [5] [4]).2).sum = List.sum [4] := by
  refine ⟨sequence_create_padding_spec.1 [5, 7, 9] [2, 1, 1] simState rfl,
    sequence_create_padding_spec.2.2.2.2.2.1 [5, 7, 9] [2, 1, 1] (by decide),
    sequence_create_padding_spec.2.2.2.2.2.2 [5] [2] (by decide) (by decide),
    sequence_create_padding_spec.2.1 [5] [4]⟩

/-- C9: for short step lists matching a padding rule, the caller's list
objects are mutated in place by `_arbitrary_sequence_create` (insert,
extend, and element decrement on the passed lists): after the call the
caller-visible lists are the padded 3-step lists, not the values
originally passed in. -/
theorem sequence_create_inplace_mutation (hl ll : List ℤ) (s : Driver)
    (heq : hl.length = ll.length) (hm : padMatch hl ll) :
    (arbitrary_sequence_create hl ll s).2.1 = padSteps hl ll ∧
    ((arbitrary_sequence_create hl ll s).2.1).1.length = 3 ∧
    ((arbitrary_sequence_create hl ll s).2.1).2.length = 3 ∧
    (arbitrary_sequence_create hl ll s).2.1 ≠ (hl, ll) := by
  have hlists : (arbitrary_sequence_create hl ll s).2.1 = padSteps hl ll := by
    rw [seqCreate_lists, if_neg (fun hc => hc.1 heq)]
  have hlen := padSteps_length_of_match hl ll heq hm
  refine ⟨hlists, by rw [hlists]; exact hlen.1, by rw [hlists]; exact hlen.2, ?_⟩
  rw [hlists]
  intro hcontra
  have hfst : ((padSteps hl ll).1).length = hl.length := by rw [hcontra]
  rw [hlen.1] at hfst
  have := padMatch_length_lt hl ll hm
  omega

/-- Witness for the in-place mutation claim at the claim's own example: the
single step `(5, 4)` leaves the caller holding `([5,5,5], [2,1,1])`. -/
theorem sequence_create_inplace_mutation_w :
    (arbitrary_sequence_create [5] [4] simState).2.1 = padSteps [5] [4] ∧
    ((arbitrary_sequence_create [5] [4] simState).2.1).1.length = 3 ∧
    ((arbitrary_sequence_create [5] [4] simState).2.1).2.length = 3 ∧
    (arbitrary_sequence_create [5] [4] simState).2.1 ≠ ([5], [4]) :=
  sequence_create_inplace_mutation [5] [4] simState rfl (by decide)

/-- C6: failure cases of `createWaveform`
(`_arbitrary_waveform_create_channel_waveform`).  When the channel's
segment counter has reached `MAX_WAVEFORMS` the call fails with
`NoWaveformsAvailableException` (the spec's CapacityExceeded); below
capacity, a sample count under 320 or not a multiple of 32 fails with
`ValueNotSupportedException`, and an out-of-range sample fails with
`OutOfRangeException` (the two exceptions behind the spec's
InvalidWaveform taxonomy); in every failure case the returned state is
exactly the input state, so the counter is unchanged and no transport
message or channel selection has happened. -/
theorem create_waveform_failure_spec (index : ℤ) (data : List ℚ) (s : Driver) :
    (pyGetD s.segmentCount index ≥ arbitrary_waveform_number_waveforms_max →
      arbitrary_waveform_create_channel_waveform index data s =
        (Except.error Err.noWaveformsAvailable, s)) ∧
    (pyGetD s.segmentCount index < arbitrary_waveform_number_waveforms_max →
      (data.length < arbitrary_waveform_size_min ∨
        data.length % arbitrary_waveform_quantum ≠ 0) →
      arbitrary_waveform_create_channel_waveform index data s =
        (Except.error Err.valueNotSupported, s)) ∧
    (pyGetD s.segmentCount index < arbitrary_waveform_number_waveforms_max →
      ¬(data.length < arbitrary_waveform_size_min ∨
        data.length % arbitrary_waveform_quantum ≠ 0) →
      (data.all fun x => decide (-1 ≤ x ∧ x ≤ 1)) = false →
      arbitrary_waveform_create_channel_waveform index data s =
        (Except.error Err.outOfRange, s)) := by
  unfold arbitrary_waveform_create_channel_waveform
  refine ⟨fun h1 => ?_, fun h1 h2 => ?_, fun h1 h2 h3 => ?_⟩
  · rw [if_pos h1]
  · rw [if_neg (not_le.mpr h1), if_pos h2]
  · rw [if_neg (not_le.mpr h1), if_neg h2, if_pos h3]

set_option maxRecDepth 40000 in
/-- Witness for the failure cases: a full channel rejects a valid payload
with the capacity error, an empty payload is rejected for its size, and a
payload of 320 samples of value 2 is rejected for its range — each time
with the state returned untouched. -/
theorem create_waveform_failure_spec_w :
    arbitrary_waveform_create_channel_waveform 0 data320
        { simState with segmentCount := [32000, 0] } =
      (Except.error Err.noWaveformsAvailable, { simState with segmentCount := [32000, 0] }) ∧
    arbitrary_waveform_create_channel_waveform 0 [] simState =
      (Except.error Err.valueNotSupported, simState) ∧
    arbitrary_waveform_create_channel_waveform 0 dataBad simState =
      (Except.error Err.outOfRange, simState) := by
  refine ⟨(create_waveform_failure_spec 0 data320 _).1 (by decide),
    (create_waveform_failure_spec 0 [] simState).2.1 (by decide) (by decide),
    (create_waveform_failure_spec 0 dataBad simState).2.2 (by decide) (by decide) (by decide)⟩

/-- C3 amended: the round-trip `handle // MAX_WAVEFORMS = channel` holds
for every accepted creation whose pre-call counter is nonnegative and
strictly below `MAX_WAVEFORMS - 1` (one slot short of the claim's
`< MAX_WAVEFORMS` bound): the counterexample shows that at counter
`MAX_WAVEFORMS - 1` the call is still accepted but the handle decodes to
`channel + 1`. -/
theorem create_waveform_handle_decode_amended (index : ℤ) (data : List ℚ) (s : Driver)
    (h0 : 0 ≤ pyGetD s.segmentCount index)
    (h1 : pyGetD s.segmentCount index + 1 < arbitrary_waveform_number_waveforms_max)
    (h2 : ¬(data.length < arbitrary_waveform_size_min ∨
      data.length % arbitrary_waveform_quantum ≠ 0))
    (h3 : (data.all fun x => decide (-1 ≤ x ∧ x ≤ 1)) = true) :
    (arbitrary_waveform_create_channel_waveform index data s).1 =
      Except.ok (pyGetD s.segmentCount index + 1 +
        index * arbitrary_waveform_number_waveforms_max) ∧
    Int.fdiv (pyGetD s.segmentCount index + 1 +
        index * arbitrary_waveform_number_waveforms_max)
      arbitrary_waveform_number_waveforms_max = index := by
  constructor
  · rw [create_result, if_neg (by omega), if_neg h2, if_neg (by rw [h3]; decide)]
  · rw [Int.fdiv_eq_ediv _ (by decide),
      Int.add_mul_ediv_right _ _ (by decide : arbitrary_waveform_number_waveforms_max ≠ 0),
      Int.ediv_eq_zero_of_lt (by omega) (by omega)]
    omega

set_option maxRecDepth 40000 in
/-- Witness for the amended round-trip: the first waveform on channel 0
gets handle 1, which decodes to channel 0. -/
theorem create_waveform_handle_decode_amended_w :
    (arbitrary_waveform_create_channel_waveform 0 data320 simState).1 =
      Except.ok (pyGetD simState.segmentCount 0 + 1 +
        0 * arbitrary_waveform_number_waveforms_max) ∧
    Int.fdiv (pyGetD simState.segmentCount 0 + 1 +
        0 * arbitrary_waveform_number_waveforms_max)
      arbitrary_waveform_number_waveforms_max = 0 :=
  create_waveform_handle_decode_amended 0 data320 simState (by decide) (by decide)
    (by decide) (by decide)

/-- C5: with the simulate flag set, none of the five allocator operations
(`createWaveform`, `clearWaveform`, `createSequence`, `clearSequence`,
`clearAllMemory`) puts anything on the wire — no write, query, or binary
block — while every precondition check and counter mutation happens
exactly as in non-simulate mode: each operation's result (for
`createSequence` also the final caller lists) and its effect on the
segment counters and the sequence counter are identical whether the
simulate flag is true or false. -/
theorem simulate_mode_frame_spec (s : Driver) (index handle : ℤ) (data : List ℚ)
    (hl ll : List ℤ) :
    (s.simulate = true →
      ((arbitrary_waveform_create_channel_waveform index data s).2).wire = s.wire ∧
      (arbitrary_waveform_clear handle s).wire = s.wire ∧
      ((arbitrary_sequence_create hl ll s).2.2).wire = s.wire ∧
      (arbitrary_sequence_clear handle s).wire = s.wire ∧
      (arbitrary_clear_memory s).wire = s.wire) ∧
    ((arbitrary_waveform_create_channel_waveform index data (setSim true s)).1 =
      (arbitrary_waveform_create_channel_waveform index data (setSim false s)).1 ∧
     ((arbitrary_waveform_create_channel_waveform index data (setSim true s)).2).segmentCount =
      ((arbitrary_waveform_create_channel_waveform index data (setSim false s)).2).segmentCount ∧
     ((arbitrary_waveform_create_channel_waveform index data (setSim true s)).2).sequenceCount =
      ((arbitrary_waveform_create_channel_waveform index data (setSim false s)).2).sequenceCount) ∧
    ((arbitrary_waveform_clear handle (setSim true s)).segmentCount =
      (arbitrary_waveform_clear handle (setSim false s)).segmentCount ∧
     (arbitrary_waveform_clear handle (setSim true s)).sequenceCount =
      (arbitrary_waveform_clear handle (setSim false s)).sequenceCount) ∧
    ((arbitrary_sequence_create hl ll (setSim true s)).1 =
      (arbitrary_sequence_create hl ll (setSim false s)).1 ∧
     (arbitrary_sequence_create hl ll (setSim true s)).2.1 =
      (arbitrary_sequence_create hl ll (setSim false s)).2.1 ∧
     ((arbitrary_sequence_create hl ll (setSim true s)).2.2).segmentCount =
      ((arbitrary_sequence_create hl ll (setSim false s)).2.2).segmentCount ∧
     ((arbitrary_sequence_create hl ll (setSim true s)).2.2).sequenceCount =
      ((arbitrary_sequence_create hl ll (setSim false s)).2.2).sequenceCount) ∧
    ((arbitrary_sequence_clear handle (setSim true s)).segmentCount =
      (arbitrary_sequence_clear handle (setSim false s)).segmentCount ∧
     (arbitrary_sequence_clear handle (setSim true s)).sequenceCount =
      (arbitrary_sequence_clear handle (setSim false s)).sequenceCount) ∧
    ((arbitrary_clear_memory (setSim true s)).segmentCount =
      (arbitrary_clear_memory (setSim false s)).segmentCount ∧
     (arbitrary_clear_memory (setSim true s)).sequenceCount =
      (arbitrary_clear_memory (setSim false s)).sequenceCount) := by
  refine ⟨fun h => ⟨create_wire_of_sim _ _ _ h, wfclear_wire_of_sim _ _ h,
    seqCreate_wire_of_sim _ _ _ h, seqclear_wire_of_sim _ _ h, clearmem_wire_of_sim _ h⟩,
    ⟨?_, ?_, ?_⟩, ⟨?_, ?_⟩, ⟨?_, ?_, ?_, ?_⟩, ⟨?_, ?_⟩, ⟨?_, ?_⟩⟩ <;>
  simp only [create_result, create_segmentCount, create_sequenceCount,
    wfclear_segmentCount, wfclear_sequenceCount, decSegIfTop_segmentCount,
    seqCreate_result, seqCreate_lists, seqCreate_segmentCount, seqCreate_sequenceCount,
    seqclear_segmentCount, seqclear_sequenceCount, decSeqIfTop_sequenceCount,
    clearmem_segmentCount, clearmem_sequenceCount,
    setSim_segmentCount, setSim_sequenceCount]

/-- Witness for the simulate-mode frame property at concrete states: with
the simulate flag on, clearing all memory leaves the wire untouched, and
the sequence handle returned by `createSequence` on `[(5, 4)]` is the same
whether or not the driver simulates. -/
theorem simulate_mode_frame_spec_w :
    (arbitrary_clear_memory simState).wire = simState.wire ∧
    (arbitrary_sequence_create [5] [4] (setSim true liveState)).1 =
      (arbitrary_sequence_create [5] [4] (setSim false liveState)).1 :=
  ⟨((simulate_mode_frame_spec simState 0 3 data320 [5] [4]).1 rfl).2.2.2.2,
    ((simulate_mode_frame_spec liveState 0 3 data320 [5] [4]).2.2.2.1).1⟩
